import Mathlib

/-!
Verification development for the GPIO pin lifecycle and pulse-control
subsystem of the pypboy repository (pages/gpio_page.py and the GPIO
service-hub entry points of main.py).

The embedding is a sequential shallow model of the Python code:

* Python dictionaries become association lists over Nat keys (insertion
  order preserved, assignment replaces in place, deletion removes the key);
* the gpiozero device objects LED, Button and PWMLED become a small
  inductive type carrying the observable device state (lit flag, pressed
  flag, duty-cycle fraction); gpiozero device construction is modelled by
  gzCreate, which fails exactly when the BCM line is invalid or already
  claimed by an unclosed device (gpiozero raises in both cases);
* GPIO_AVAILABLE is taken to be true (hardware present): every early
  return guarded by "if not GPIO_AVAILABLE" is dropped;
* tkinter widget updates, logging and message boxes have no semantic
  content and are dropped;
* the durable file gpio_state.json is a field of the model state holding
  the mapping last written by save_persistent_states;
* device.close() may raise; the model threads a closeFails predicate and
  mirrors exactly what cleanup_pin does in each case (the except handler
  swallows the error, and the del statement after close is skipped).
-/

/-- Association-list lookup over Nat keys: first binding wins, as in a
Python dict with unique keys. -/
def lookupA {α : Type} : List (Nat × α) → Nat → Option α
  | [], _ => none
  | (k, v) :: t, a => if k = a then some v else lookupA t a

/-- Membership test for a key, the model of the Python "in" operator on a
dict. -/
def hasKeyA {α : Type} : List (Nat × α) → Nat → Bool
  | [], _ => false
  | (k, _) :: t, a => if k = a then true else hasKeyA t a

/-- Key deletion, the model of del d[a] and of d.pop(a, None): removes the
binding, leaves the rest in order, and is the identity when the key is
absent. -/
def eraseA {α : Type} : List (Nat × α) → Nat → List (Nat × α)
  | [], _ => []
  | (k, v) :: t, a => if k = a then eraseA t a else (k, v) :: eraseA t a

/-- Dict assignment d[a] = v: replaces the value in place when the key is
present, appends at the end otherwise (Python dicts preserve insertion
order). -/
def insertA {α : Type} : List (Nat × α) → Nat → α → List (Nat × α)
  | [], a, v => [(a, v)]
  | (k, w) :: t, a, v => if k = a then (a, v) :: t else (k, w) :: insertA t a v

/-- In-place mutation of the value stored at a key, the model of mutating
the dict value object (for example d[a][field] = x); identity when the key
is absent. -/
def updateA {α : Type} : List (Nat × α) → Nat → (α → α) → List (Nat × α)
  | [], _, _ => []
  | (k, v) :: t, a, f => if k = a then (k, f v) :: t else (k, v) :: updateA t a f

/-- PinInfo, the catalog record from gpio_page.py (physical pin, label,
function type, optional BCM number, PWM-capability flag). -/
structure PinInfo where
  physical_pin : Nat
  name : String
  type : String
  bcm : Option Nat := none
  supports_pwm : Bool := false
deriving DecidableEq, Repr

/-- PIN_CONFIG, the static 40-entry pin table from gpio_page.py. -/
def PIN_CONFIG : List PinInfo := [
  ⟨1, "3.3v", "power", none, false⟩, ⟨2, "5v", "power", none, false⟩, ⟨3, "SDA", "gpio", some 2, false⟩,
  ⟨4, "5v", "power", none, false⟩, ⟨5, "SCL", "gpio", some 3, false⟩, ⟨6, "GND", "ground", none, false⟩,
  ⟨7, "GPIO4", "gpio", some 4, false⟩, ⟨8, "TXD", "gpio", some 14, false⟩, ⟨9, "GND", "ground", none, false⟩,
  ⟨10, "RXD", "gpio", some 15, false⟩, ⟨11, "GPIO17", "gpio", some 17, false⟩,
  ⟨12, "GPIO18", "gpio", some 18, true⟩, ⟨13, "GPIO27", "gpio", some 27, false⟩,
  ⟨14, "GND", "ground", none, false⟩, ⟨15, "GPIO22", "gpio", some 22, false⟩, ⟨16, "GPIO23", "gpio", some 23, false⟩,
  ⟨17, "3.3v", "power", none, false⟩, ⟨18, "GPIO24", "gpio", some 24, false⟩, ⟨19, "MOSI", "gpio", some 10, false⟩,
  ⟨20, "GND", "ground", none, false⟩, ⟨21, "MISO", "gpio", some 9, false⟩, ⟨22, "GPIO25", "gpio", some 25, false⟩,
  ⟨23, "SCLK", "gpio", some 11, false⟩, ⟨24, "CE0", "gpio", some 8, false⟩, ⟨25, "GND", "ground", none, false⟩,
  ⟨26, "CE1", "gpio", some 7, false⟩, ⟨27, "ID_SD", "gpio", some 0, false⟩, ⟨28, "ID_SC", "gpio", some 1, false⟩,
  ⟨29, "GPIO5", "gpio", some 5, false⟩, ⟨30, "GND", "ground", none, false⟩, ⟨31, "GPIO6", "gpio", some 6, false⟩,
  ⟨32, "GPIO12", "gpio", some 12, true⟩, ⟨33, "GPIO13", "gpio", some 13, true⟩,
  ⟨34, "GND", "ground", none, false⟩, ⟨35, "GPIO19", "gpio", some 19, true⟩,
  ⟨36, "GPIO16", "gpio", some 16, false⟩, ⟨37, "GPIO26", "gpio", some 26, false⟩,
  ⟨38, "GPIO20", "gpio", some 20, false⟩, ⟨39, "GND", "ground", none, false⟩, ⟨40, "GPIO21", "gpio", some 21, false⟩]

/-- BCM_PIN_MAP, the derived map from BCM number to catalog entry, built
exactly as in the source from the entries whose bcm field is present. -/
def BCM_PIN_MAP : List (Nat × PinInfo) :=
  PIN_CONFIG.filterMap (fun info => info.bcm.map (fun b => (b, info)))

/-- PinMode, the enum from gpio_page.py. -/
inductive PinMode where
  | OUTPUT
  | INPUT
  | PWM
deriving DecidableEq, Repr

/-- Observable state of a gpiozero device handle held in active_devices.
LED carries is_lit, Button carries is_pressed, PWMLED carries value
(duty-cycle fraction).  In gpiozero, PWMLED is not a subclass of LED
(LED extends DigitalOutputDevice, PWMLED extends PWMOutputDevice), so an
isinstance check against LED matches only the LED constructor. -/
inductive Device where
  | LED (is_lit : Bool)
  | Button (is_pressed : Bool)
  | PWMLED (value : ℚ)
deriving DecidableEq, Repr

/-- Saved state value inside a persistence record: the strings HIGH and
LOW for an LED, a fraction for a PWMLED. -/
inductive SavedState where
  | HIGH
  | LOW
  | PWMVALUE (v : ℚ)
deriving DecidableEq, Repr

/-- Persistence record for one pin, the value dict of persistent_pins and
of the durable file.  The is_persistent key is always True when a record
exists, so only the optional mode and state keys are carried.
set_pin_persistence creates the record as a fresh dict with neither key. -/
structure PersistRecord where
  mode : Option PinMode := none
  state : Option SavedState := none
deriving DecidableEq, Repr

/-- GPIOPage state: the mutable dictionaries of the page object plus the
durable file content.  pulseThreads maps a BCM pin to the interval of its
running pulse thread (the thread and stop_event objects carry no further
observable state in the sequential model). -/
structure GState where
  activeDevices : List (Nat × Device) := []
  pulseThreads : List (Nat × ℚ) := []
  persistentPins : List (Nat × PersistRecord) := []
  stateFile : List (Nat × PersistRecord) := []
deriving DecidableEq, Repr

/-- Fresh page state: empty dictionaries, no durable file content. -/
def gEmpty : GState := {}

/-- Models gpiozero device construction (LED, Button, PWMLED under the
LGPIO pin factory): construction raises when the requested line is already
claimed by an unclosed device (GPIOPinInUse) or when the BCM number is not
a valid GPIO line (the valid lines coincide with the BCM numbers of the
catalog, 0 to 27); otherwise it yields a fresh device in its initial state
(LED off, Button unpressed, PWMLED at duty-cycle 0).  The claimed lines
are the keys of active_devices, since every stored handle is unclosed. -/
def gzCreate (claimed : List (Nat × Device)) (a : Nat) (mode : PinMode) : Option Device :=
  if hasKeyA claimed a then none
  else if hasKeyA BCM_PIN_MAP a then
    some (match mode with
      | PinMode.OUTPUT => Device.LED false
      | PinMode.INPUT => Device.Button false
      | PinMode.PWM => Device.PWMLED 0)
  else none

/-- Python round(x, 4): round half to even at four decimal places, applied
by save_persistent_states to a PWMLED value. -/
def round4 (x : ℚ) : ℚ :=
  let y := x * 10000
  let f : ℤ := Int.floor y
  let r := y - f
  let n : ℤ :=
    if r < 1/2 then f
    else if 1/2 < r then f + 1
    else if f % 2 = 0 then f else f + 1
  (n : ℚ) / 10000

/-- Body of the save loop of save_persistent_states: a copy of the stored
record with its state key refreshed from the live device (HIGH or LOW for
an LED, the rounded fraction for a PWMLED, unchanged for an input device
because input pins have no savable state). -/
def recordWithCurrentState (r : PersistRecord) (d : Device) : PersistRecord :=
  match d with
  | Device.PWMLED v => { r with state := some (SavedState.PWMVALUE (round4 v)) }
  | Device.LED lit => { r with state := some (if lit then SavedState.HIGH else SavedState.LOW) }
  | Device.Button _ => r

/-- The pins_to_save mapping built by save_persistent_states: the pins of
persistent_pins that are currently in active_devices, each paired with a
state-refreshed copy of its record. -/
def pins_to_save (persistent : List (Nat × PersistRecord)) (devices : List (Nat × Device)) :
    List (Nat × PersistRecord) :=
  persistent.filterMap (fun pr =>
    match lookupA devices pr.1 with
    | some d => some (pr.1, recordWithCurrentState pr.2 d)
    | none => none)

/-- GPIOPage.save_persistent_states: rewrites the whole durable file with
the pins_to_save mapping (the in-memory persistent_pins dict is not
touched, because the loop works on copies of its records). -/
def save_persistent_states (s : GState) : GState :=
  { s with stateFile := pins_to_save s.persistentPins s.activeDevices }

/-- Effect on active_devices of turning the device at a key off when it is
an LED, and leaving it alone otherwise. -/
def setLEDOffAt (devs : List (Nat × Device)) (a : Nat) : List (Nat × Device) :=
  updateA devs a (fun d => match d with
    | Device.LED _ => Device.LED false
    | other => other)

/-- GPIOPage.stop_pulse: when a pulse thread exists for the pin, signals
its stop event, joins the thread (the loop observes the event, exits, and
runs its final device.off()), deletes the pulse_threads entry, and then
turns the device in active_devices off again when it is an LED.  Both
off() calls drive the same LED low, modelled by one setLEDOffAt.  When no
pulse thread exists the method does nothing. -/
def stop_pulse (s : GState) (a : Nat) : GState :=
  if hasKeyA s.pulseThreads a then
    { s with pulseThreads := eraseA s.pulseThreads a,
             activeDevices := setLEDOffAt s.activeDevices a }
  else s

/-- GPIOPage.start_pulse: stops any running pulse for the pin first, then
registers a new pulse thread at the given interval and starts it.  There
is no validation of the interval value. -/
def start_pulse (s : GState) (a : Nat) (interval : ℚ) : GState :=
  let s1 := stop_pulse s a
  { s1 with pulseThreads := insertA s1.pulseThreads a interval }

/-- GPIOPage.cleanup_pin: stops any pulse, then, when the pin has an
active device, closes it and deletes the entry; a close() error is caught
and logged, and because the del statement sits after close() inside the
try block, a failing close leaves the handle registered.  In every case
the persistence record for the pin is popped and the durable file is
rewritten.  The method never raises. -/
def cleanup_pin (closeFails : Nat → Bool) (s : GState) (a : Nat) : GState :=
  let s1 := stop_pulse s a
  let s2 :=
    if hasKeyA s1.activeDevices a then
      if closeFails a then s1
      else { s1 with activeDevices := eraseA s1.activeDevices a }
    else s1
  let s3 := { s2 with persistentPins := eraseA s2.persistentPins a }
  save_persistent_states s3

/-- GPIOPage.set_pin_persistence: enabling stores a fresh record holding
only the is_persistent flag (no mode, no state), disabling pops any
record; both then rewrite the durable file. -/
def set_pin_persistence (s : GState) (a : Nat) (enabled : Bool) : GState :=
  let s1 :=
    if enabled then { s with persistentPins := insertA s.persistentPins a {} }
    else { s with persistentPins := eraseA s.persistentPins a }
  save_persistent_states s1

/-- GPIOPage.is_pin_persistent. -/
def is_pin_persistent (s : GState) (a : Nat) : Bool :=
  hasKeyA s.persistentPins a

/-- GPIOPage.is_pin_pulsing. -/
def is_pin_pulsing (s : GState) (a : Nat) : Bool :=
  hasKeyA s.pulseThreads a

/-- GPIOPage.setup_pin: when the pin already has an active device the
method logs that it is skipping setup but falls through without cleaning
up; only an unconfigured pin is cleaned up first.  It then constructs the
requested gpiozero device; on success the handle is stored and, when the
pin is marked persistent, the mode name is written into the record (and
the file is rewritten unless called from the load path).  On a
construction failure the except handler runs cleanup_pin. -/
def setup_pin (closeFails : Nat → Bool) (s : GState) (a : Nat) (mode : PinMode)
    (from_load : Bool) : GState :=
  let s1 := if hasKeyA s.activeDevices a then s else cleanup_pin closeFails s a
  match gzCreate s1.activeDevices a mode with
  | some d =>
      let s2 := { s1 with activeDevices := insertA s1.activeDevices a d }
      if hasKeyA s2.persistentPins a then
        let p3 := updateA s2.persistentPins a (fun r => { r with mode := some mode })
        let s3 := { s2 with persistentPins := p3 }
        if from_load then s3 else save_persistent_states s3
      else s2
  | none => cleanup_pin closeFails s1 a

/-- Python str.lower as applied to the state argument of
handle_ai_gpio_request (ASCII case folding via the character list, written
structurally so that it computes). -/
def pyLower (s : String) : String :=
  String.mk (s.data.map Char.toLower)

/-- GPIOPage.handle_ai_gpio_request: validates only against the
active_devices table (not the catalog); rejects a pin with no device, then
a device that is not an LED (Button and PWMLED both fail the isinstance
check against LED), then an unrecognised state string; otherwise drives
the LED and rewrites the durable file.  Returns the (success, message)
pair of the source together with the successor state; the messages keep
the wording of the source with the interpolated pin number and type name
omitted. -/
def handle_ai_gpio_request (s : GState) (a : Nat) (state : String) :
    (Bool × String) × GState :=
  match lookupA s.activeDevices a with
  | none => ((false, "Pin is not currently configured. Please set it to OUTPUT mode first."), s)
  | some (Device.LED _) =>
      if pyLower state = "high" then
        let s1 := { s with activeDevices := updateA s.activeDevices a (fun _ => Device.LED true) }
        ((true, "Successfully set pin to HIGH."), save_persistent_states s1)
      else if pyLower state = "low" then
        let s1 := { s with activeDevices := updateA s.activeDevices a (fun _ => Device.LED false) }
        ((true, "Successfully set pin to LOW."), save_persistent_states s1)
      else
        ((false, "Invalid state. Use high or low."), s)
  | some _ => ((false, "Pin is not configured as an OUTPUT. Current mode is another type."), s)

/-- Models hasattr(device, toggle) as used by MainApplication.
request_gpio_pulse: gpiozero LED and PWMLED expose toggle, Button does
not. -/
def hasToggle : Device → Bool
  | Device.LED _ => true
  | Device.PWMLED _ => true
  | Device.Button _ => false

/-- MainApplication.request_gpio_pulse: requires only that the pin has an
active device exposing toggle; converts milliseconds to seconds and calls
start_pulse.  No validation of the interval value is performed. -/
def request_gpio_pulse (s : GState) (a : Nat) (interval_ms : ℤ) :
    (Bool × String) × GState :=
  match lookupA s.activeDevices a with
  | some d =>
      if hasToggle d then
        ((true, "Pulse started on pin."), start_pulse s a ((interval_ms : ℚ) / 1000))
      else ((false, "Pin is not an output device."), s)
  | none => ((false, "Pin is not configured. Set to OUTPUT first."), s)

/-- OutputControlWindow.UNIT_CONVERSIONS applied to a chosen unit name. -/
def UNIT_CONVERSIONS (unit : String) (x : ℚ) : Option ℚ :=
  if unit = "Milliseconds" then some (x / 1000)
  else if unit = "Seconds" then some x
  else if unit = "Minutes" then some (x * 60)
  else none

/-- OutputControlWindow._get_interval_in_seconds: raises ValueError when
the entered value is not strictly positive, otherwise converts it with the
selected unit.  This interactive entry check is the only interval
validation in the program. -/
def get_interval_in_seconds (interval_val : ℚ) (unit : String) : Except String ℚ :=
  if interval_val ≤ 0 then Except.error "Interval must be positive."
  else
    match UNIT_CONVERSIONS unit interval_val with
    | some v => Except.ok v
    | none => Except.error "Unknown unit"

/-- Timed trace of GPIOPage._pulse_loop driving an LED whose value starts
at init: each loop iteration is device.toggle() followed by
stop_event.wait(interval), so the k-th toggle of the output happens at
time k * interval.  pulse_loop_trace init interval k is the pair (time of
the k-th toggle, output value immediately after it). -/
def pulse_loop_trace (init : Bool) (interval : ℚ) : Nat → ℚ × Bool
  | 0 => (0, !init)
  | k + 1 =>
      ((pulse_loop_trace init interval k).1 + interval,
       !(pulse_loop_trace init interval k).2)

/-- State application step of the load loop in GPIOPage._load_pin_states:
after setup_pin has run for a restored record, the saved state is applied
to the freshly created device when the mode and device class agree.  For
an output, device.on() runs exactly when the saved state equals HIGH and
device.off() otherwise; for a PWM device, float(saved_state) succeeds only
on a stored fraction (on None or on the strings HIGH and LOW it raises,
the per-pin except handler logs, and the device keeps its state). -/
def apply_saved_state (s : GState) (a : Nat) (mode : PinMode) (r : PersistRecord) : GState :=
  match lookupA s.activeDevices a with
  | none => s
  | some d =>
      match mode, d with
      | PinMode.OUTPUT, Device.LED _ =>
          { s with activeDevices :=
              updateA s.activeDevices a (fun _ => Device.LED (r.state == some SavedState.HIGH)) }
      | PinMode.PWM, Device.PWMLED _ =>
          match r.state with
          | some (SavedState.PWMVALUE v) =>
              { s with activeDevices := updateA s.activeDevices a (fun _ => Device.PWMLED v) }
          | _ => s
      | _, _ => s

/-- Body of the load loop of GPIOPage._load_pin_states for one record: a
record without a mode key does nothing (the if mode_str test fails); a
record with a mode calls setup_pin with from_load set and then applies the
saved state to the resulting device. -/
def load_restore_pin (closeFails : Nat → Bool) (s : GState) (a : Nat) (r : PersistRecord) : GState :=
  match r.mode with
  | none => s
  | some m => apply_saved_state (setup_pin closeFails s a m true) a m r

/-- The for loop of GPIOPage._load_pin_states, which iterates the
persistent_pins dict while the bodies may mutate it: restoring a record
that has a mode runs setup_pin, whose cleanup_pin pops that very record
from the dict being iterated.  CPython dict iterators raise RuntimeError
at the next iteration step (including the final, exhausting one) whenever
the dict size differs from its size at iterator creation, and
_load_pin_states catches only IOError and JSONDecodeError, so the
RuntimeError escapes: GPIOPage.__init__ fails and create_all_pages drops
the whole page.  The result is ok with the final state when the loop
finishes, and error carrying the state reached when the iterator check
fires. -/
def load_loop (closeFails : Nat → Bool) (n0 : Nat) :
    GState → List (Nat × PersistRecord) → Except GState GState
  | s, [] => if s.persistentPins.length = n0 then Except.ok s else Except.error s
  | s, (a, r) :: rest =>
      if s.persistentPins.length = n0 then
        load_loop closeFails n0 (load_restore_pin closeFails s a r) rest
      else Except.error s

/-- GPIOPage._load_pin_states run at page construction against an existing
durable file: the file mapping is read whole into persistent_pins and the
load loop restores each record in file order on the fresh page state.  An
ok result is the constructed page; an error result means GPIOPage
construction raised and the page was dropped by create_all_pages. -/
def load_pin_states (closeFails : Nat → Bool) (file : List (Nat × PersistRecord)) :
    Except GState GState :=
  let s0 : GState := { activeDevices := [], pulseThreads := [],
                       persistentPins := file, stateFile := file }
  load_loop closeFails file.length s0 file

deriving instance DecidableEq for Except

/-! Helper lemmas about the association-list operations. -/

theorem lookupA_eraseA_self {α : Type} (l : List (Nat × α)) (a : Nat) :
    lookupA (eraseA l a) a = none := by
  induction l with
  | nil => rfl
  | cons h t ih => simp only [eraseA]; split <;> simp_all [lookupA]

theorem hasKeyA_eq_isSome_lookupA {α : Type} (l : List (Nat × α)) (a : Nat) :
    hasKeyA l a = (lookupA l a).isSome := by
  induction l with
  | nil => rfl
  | cons h t ih => simp only [hasKeyA, lookupA]; split <;> simp_all

theorem hasKeyA_eraseA_self {α : Type} (l : List (Nat × α)) (a : Nat) :
    hasKeyA (eraseA l a) a = false := by
  rw [hasKeyA_eq_isSome_lookupA, lookupA_eraseA_self]; rfl

theorem eraseA_idem {α : Type} (l : List (Nat × α)) (a : Nat) :
    eraseA (eraseA l a) a = eraseA l a := by
  induction l with
  | nil => rfl
  | cons h t ih => simp only [eraseA]; split <;> simp_all [eraseA]

theorem eraseA_of_not_hasKeyA {α : Type} (l : List (Nat × α)) (a : Nat)
    (h : hasKeyA l a = false) : eraseA l a = l := by
  induction l with
  | nil => rfl
  | cons hd t ih =>
      simp only [hasKeyA] at h
      simp only [eraseA]
      split
      · simp_all
      · simp_all

theorem lookupA_insertA_self {α : Type} (l : List (Nat × α)) (a : Nat) (v : α) :
    lookupA (insertA l a v) a = some v := by
  induction l with
  | nil => simp [insertA, lookupA]
  | cons h t ih => simp only [insertA]; split <;> simp_all [lookupA]

theorem hasKeyA_insertA_self {α : Type} (l : List (Nat × α)) (a : Nat) (v : α) :
    hasKeyA (insertA l a v) a = true := by
  rw [hasKeyA_eq_isSome_lookupA, lookupA_insertA_self]; rfl

theorem lookupA_updateA_self {α : Type} (l : List (Nat × α)) (a : Nat) (f : α → α) :
    lookupA (updateA l a f) a = (lookupA l a).map f := by
  induction l with
  | nil => rfl
  | cons h t ih => simp only [updateA, lookupA]; split <;> simp_all [lookupA]

theorem hasKeyA_updateA {α : Type} (l : List (Nat × α)) (a b : Nat) (f : α → α) :
    hasKeyA (updateA l a f) b = hasKeyA l b := by
  induction l with
  | nil => rfl
  | cons h t ih =>
      simp only [updateA, hasKeyA]
      split <;> simp_all [hasKeyA]

theorem lookupA_eq_none_of_not_hasKeyA {α : Type} (l : List (Nat × α)) (a : Nat)
    (h : hasKeyA l a = false) : lookupA l a = none := by
  rw [hasKeyA_eq_isSome_lookupA] at h
  cases hl : lookupA l a with
  | none => rfl
  | some v => rw [hl] at h; cases h

theorem hasKeyA_pins_to_save (p : List (Nat × PersistRecord)) (d : List (Nat × Device)) (a : Nat) :
    hasKeyA (pins_to_save p d) a = (hasKeyA p a && hasKeyA d a) := by
  induction p with
  | nil => rfl
  | cons h t ih =>
      simp only [pins_to_save, List.filterMap] at *
      rw [hasKeyA_eq_isSome_lookupA d a] at *
      cases hl : lookupA d h.1 with
      | none =>
          simp only [hl]
          simp only [hasKeyA]
          split
          · rename_i heq
            subst heq
            simp [hl, ih]
          · exact ih
      | some dev =>
          simp only [hl]
          simp only [hasKeyA]
          split
          · rename_i heq
            subst heq
            simp [hl]
          · simp_all [hasKeyA]

/-! Helper lemmas about the model operations. -/

theorem GState_ext (s t : GState)
    (h1 : s.activeDevices = t.activeDevices) (h2 : s.pulseThreads = t.pulseThreads)
    (h3 : s.persistentPins = t.persistentPins) (h4 : s.stateFile = t.stateFile) : s = t := by
  cases s; cases t; simp_all

theorem stop_pulse_of_not_pulsing (s : GState) (a : Nat)
    (h : hasKeyA s.pulseThreads a = false) : stop_pulse s a = s := by
  unfold stop_pulse
  simp [h]

theorem stop_pulse_pulseThreads (s : GState) (a : Nat) :
    (stop_pulse s a).pulseThreads = eraseA s.pulseThreads a := by
  unfold stop_pulse
  split
  · rfl
  · rename_i h
    rw [eraseA_of_not_hasKeyA _ _ (by simpa using h)]

theorem stop_pulse_persistentPins (s : GState) (a : Nat) :
    (stop_pulse s a).persistentPins = s.persistentPins := by
  unfold stop_pulse; split <;> rfl

theorem stop_pulse_stateFile (s : GState) (a : Nat) :
    (stop_pulse s a).stateFile = s.stateFile := by
  unfold stop_pulse; split <;> rfl

theorem stop_pulse_hasKey_active (s : GState) (a b : Nat) :
    hasKeyA (stop_pulse s a).activeDevices b = hasKeyA s.activeDevices b := by
  unfold stop_pulse
  split
  · simp [setLEDOffAt, hasKeyA_updateA]
  · rfl

theorem cleanup_pin_pulseThreads (cf : Nat → Bool) (s : GState) (a : Nat) :
    (cleanup_pin cf s a).pulseThreads = eraseA s.pulseThreads a := by
  unfold cleanup_pin save_persistent_states
  by_cases h1 : hasKeyA (stop_pulse s a).activeDevices a = true <;>
    by_cases h2 : cf a = true <;>
      simp [h1, h2, stop_pulse_pulseThreads]

theorem cleanup_pin_persistentPins (cf : Nat → Bool) (s : GState) (a : Nat) :
    (cleanup_pin cf s a).persistentPins = eraseA s.persistentPins a := by
  unfold cleanup_pin save_persistent_states
  by_cases h1 : hasKeyA (stop_pulse s a).activeDevices a = true <;>
    by_cases h2 : cf a = true <;>
      simp [h1, h2, stop_pulse_persistentPins]

theorem cleanup_pin_activeDevices (cf : Nat → Bool) (s : GState) (a : Nat) :
    (cleanup_pin cf s a).activeDevices =
      if hasKeyA (stop_pulse s a).activeDevices a = true then
        if cf a = true then (stop_pulse s a).activeDevices
        else eraseA (stop_pulse s a).activeDevices a
      else (stop_pulse s a).activeDevices := by
  unfold cleanup_pin save_persistent_states
  by_cases h1 : hasKeyA (stop_pulse s a).activeDevices a = true <;>
    by_cases h2 : cf a = true <;>
      simp [h1, h2]

theorem cleanup_pin_save_inv (cf : Nat → Bool) (s : GState) (a : Nat) :
    (cleanup_pin cf s a).stateFile =
      pins_to_save (cleanup_pin cf s a).persistentPins (cleanup_pin cf s a).activeDevices := by
  unfold cleanup_pin save_persistent_states
  by_cases h1 : hasKeyA (stop_pulse s a).activeDevices a = true <;>
    by_cases h2 : cf a = true <;>
      simp [h1, h2, pins_to_save]

theorem cleanup_pin_hasKey_active_of_closeOk (cf : Nat → Bool) (s : GState) (a : Nat)
    (h : cf a = false) : hasKeyA (cleanup_pin cf s a).activeDevices a = false := by
  rw [cleanup_pin_activeDevices]
  split
  · rw [h]
    simp [hasKeyA_eraseA_self]
  · simp_all

/-- Close-failure oracle for concrete runs: device.close never raises. -/
def closeOk : Nat → Bool := fun _ => false

/-- Shared core for the failed-setup claims: whenever device construction
fails inside setup_pin (the line is already claimed by an unclosed handle,
or the address is not a GPIO line of the catalog) and close does not fail
for the address, the except handler runs cleanup_pin, after which the
address has no active device, no persistence record, and no entry in the
rewritten durable file. -/
theorem setup_pin_create_fails_cleanup (cf : Nat → Bool) (s : GState) (a : Nat)
    (m : PinMode) (fl : Bool) (hclose : cf a = false)
    (hfail : hasKeyA s.activeDevices a = true ∨ hasKeyA BCM_PIN_MAP a = false) :
    lookupA (setup_pin cf s a m fl).activeDevices a = none ∧
    hasKeyA (setup_pin cf s a m fl).persistentPins a = false ∧
    hasKeyA (setup_pin cf s a m fl).stateFile a = false := by
  have main : ∀ t : GState, setup_pin cf s a m fl = cleanup_pin cf t a →
      lookupA (setup_pin cf s a m fl).activeDevices a = none ∧
      hasKeyA (setup_pin cf s a m fl).persistentPins a = false ∧
      hasKeyA (setup_pin cf s a m fl).stateFile a = false := by
    intro t ht
    rw [ht]
    refine ⟨?_, ?_, ?_⟩
    · exact lookupA_eq_none_of_not_hasKeyA _ _
        (cleanup_pin_hasKey_active_of_closeOk cf t a hclose)
    · rw [cleanup_pin_persistentPins, hasKeyA_eraseA_self]
    · rw [cleanup_pin_save_inv, hasKeyA_pins_to_save, cleanup_pin_persistentPins,
        hasKeyA_eraseA_self, Bool.false_and]
  by_cases hk : hasKeyA s.activeDevices a = true
  · apply main s
    have hnone : gzCreate s.activeDevices a m = none := by unfold gzCreate; rw [if_pos hk]
    simp only [setup_pin, hk, if_true, hnone]
  · have hk2 : hasKeyA s.activeDevices a = false := by simpa using hk
    have hcat : hasKeyA BCM_PIN_MAP a = false := by
      rcases hfail with h | h
      · rw [hk2] at h; cases h
      · exact h
    apply main (cleanup_pin cf s a)
    have hnone : gzCreate (cleanup_pin cf s a).activeDevices a m = none := by
      unfold gzCreate
      rw [hcat]
      split <;> simp
    simp only [setup_pin, hk2, Bool.false_eq_true, if_false, hnone]

/-- C8: cleanup_pin called twice in a row equals cleanup_pin called once,
for every page state and every close-failure behaviour.  The second call
changes nothing: the pulse entry, the device handle and the persistence
record are already gone (or, after a close failure, the handle stays put
in both calls), and the file rewrite reproduces the same content.  The
model of cleanup_pin is a total function into states for every behaviour
of device.close, embedding that the method catches and only logs release
errors and never raises. -/
theorem c8_cleanup_pin_idempotent (cf : Nat → Bool) (s : GState) (a : Nat) :
    cleanup_pin cf (cleanup_pin cf s a) a = cleanup_pin cf s a := by
  have hstop : stop_pulse (cleanup_pin cf s a) a = cleanup_pin cf s a :=
    stop_pulse_of_not_pulsing _ _ (by rw [cleanup_pin_pulseThreads, hasKeyA_eraseA_self])
  have hdev : (cleanup_pin cf (cleanup_pin cf s a) a).activeDevices
      = (cleanup_pin cf s a).activeDevices := by
    rw [cleanup_pin_activeDevices, hstop]
    by_cases h2 : cf a = true
    · simp [h2]
    · have h3 : hasKeyA (cleanup_pin cf s a).activeDevices a = false :=
        cleanup_pin_hasKey_active_of_closeOk cf s a (by simpa using h2)
      simp [h3]
  have hpul : (cleanup_pin cf (cleanup_pin cf s a) a).pulseThreads
      = (cleanup_pin cf s a).pulseThreads := by
    rw [cleanup_pin_pulseThreads cf (cleanup_pin cf s a) a,
      cleanup_pin_pulseThreads cf s a, eraseA_idem]
  have hper : (cleanup_pin cf (cleanup_pin cf s a) a).persistentPins
      = (cleanup_pin cf s a).persistentPins := by
    rw [cleanup_pin_persistentPins cf (cleanup_pin cf s a) a,
      cleanup_pin_persistentPins cf s a, eraseA_idem]
  have hfile : (cleanup_pin cf (cleanup_pin cf s a) a).stateFile
      = (cleanup_pin cf s a).stateFile := by
    rw [cleanup_pin_save_inv cf (cleanup_pin cf s a) a, hper, hdev, ← cleanup_pin_save_inv]
  exact GState_ext _ _ hdev hpul hper hfile

/-- C6: for an address with a running pulse whose active device is an LED
output, stop_pulse removes the pulse entry and deterministically drives
the output low: the joined loop runs its final device.off() and stop_pulse
repeats the off() on the registered device, so afterwards the LED reads
low. -/
theorem c6_stop_pulse_drives_output_low (s : GState) (a : Nat) (b : Bool)
    (hpulse : hasKeyA s.pulseThreads a = true)
    (hdev : lookupA s.activeDevices a = some (Device.LED b)) :
    lookupA (stop_pulse s a).activeDevices a = some (Device.LED false) ∧
    is_pin_pulsing (stop_pulse s a) a = false := by
  unfold stop_pulse is_pin_pulsing
  simp [hpulse, setLEDOffAt, lookupA_updateA_self, hdev, hasKeyA_eraseA_self]

/-- Witness for C6 at a concrete run: pin 17 set up as an output and made
to pulse at one second; stopping the pulse leaves the LED low and the
pulse table empty at 17. -/
theorem c6_stop_pulse_drives_output_low_witness :
    lookupA (stop_pulse (start_pulse (setup_pin closeOk gEmpty 17 PinMode.OUTPUT false) 17 1) 17).activeDevices 17
      = some (Device.LED false) ∧
    is_pin_pulsing (stop_pulse (start_pulse (setup_pin closeOk gEmpty 17 PinMode.OUTPUT false) 17 1) 17) 17 = false :=
  c6_stop_pulse_drives_output_low
    (start_pulse (setup_pin closeOk gEmpty 17 PinMode.OUTPUT false) 17 1) 17 false
    (by decide) (by decide)

/-- C10: the durable file written by save_persistent_states holds exactly
the persistent pins that currently have an active device handle, and in
particular marking an unconfigured pin persistent writes no record for it
to the file. -/
theorem c10_save_writes_only_active_pins (s : GState) (a : Nat) :
    (hasKeyA (save_persistent_states s).stateFile a
      = (hasKeyA s.persistentPins a && hasKeyA s.activeDevices a)) ∧
    (hasKeyA s.activeDevices a = false →
      hasKeyA (set_pin_persistence s a true).stateFile a = false) := by
  constructor
  · simpa [save_persistent_states] using hasKeyA_pins_to_save s.persistentPins s.activeDevices a
  · intro h
    unfold set_pin_persistence save_persistent_states
    simp [hasKeyA_pins_to_save, h]

/-- Witness for C10 at a concrete input: on the fresh page state, pin 5
has no device, and marking it persistent leaves the durable file without
an entry for 5. -/
theorem c10_save_writes_only_active_pins_witness :
    hasKeyA gEmpty.activeDevices 5 = false ∧
    hasKeyA (set_pin_persistence gEmpty 5 true).stateFile 5 = false :=
  ⟨by decide, (c10_save_writes_only_active_pins gEmpty 5).2 (by decide)⟩

/-- Counterexample to C7 as stated: with interval 1 the first two toggles
of the pulse loop are separated by 1, not by 1/2, so successive toggles
are not separated by half the interval. -/
theorem c7_toggles_not_half_interval_apart :
    ¬ ((pulse_loop_trace false 1 1).1 - (pulse_loop_trace false 1 0).1 = 1 / 2) := by
  norm_num [pulse_loop_trace]

/-- C7 as amended: the pulse loop toggles the output once per full
interval (device.toggle() then stop_event.wait(interval)), so successive
toggles are separated by the interval and the boolean output alternates
with full period twice the interval. -/
theorem c7_pulse_loop_full_interval_toggles (init : Bool) (interval : ℚ) (k : Nat) :
    (pulse_loop_trace init interval (k + 1)).1 - (pulse_loop_trace init interval k).1 = interval ∧
    (pulse_loop_trace init interval (k + 1)).2 = !(pulse_loop_trace init interval k).2 ∧
    (pulse_loop_trace init interval (k + 2)).2 = (pulse_loop_trace init interval k).2 ∧
    (pulse_loop_trace init interval (k + 2)).1 = (pulse_loop_trace init interval k).1 + 2 * interval := by
  refine ⟨by simp [pulse_loop_trace], by simp [pulse_loop_trace], ?_, ?_⟩
  · show (pulse_loop_trace init interval (k + 1 + 1)).2 = (pulse_loop_trace init interval k).2
    simp [pulse_loop_trace]
  · show (pulse_loop_trace init interval (k + 1 + 1)).1 = (pulse_loop_trace init interval k).1 + 2 * interval
    simp [pulse_loop_trace]
    ring

/-- C9: when setup_pin fails during device creation (the line is already
claimed by an unclosed handle, or the address is not a GPIO line of the
catalog) and device release itself succeeds, the except handler runs
cleanup_pin: afterwards the address has no active device handle, its
persistence record is deleted from the in-memory table, and the durable
file is rewritten without it. -/
theorem c9_failed_setup_runs_cleanup (cf : Nat → Bool) (s : GState) (a : Nat)
    (m : PinMode) (fl : Bool) (hclose : cf a = false)
    (hfail : hasKeyA s.activeDevices a = true ∨ hasKeyA BCM_PIN_MAP a = false) :
    lookupA (setup_pin cf s a m fl).activeDevices a = none ∧
    hasKeyA (setup_pin cf s a m fl).persistentPins a = false ∧
    hasKeyA (setup_pin cf s a m fl).stateFile a = false :=
  setup_pin_create_fails_cleanup cf s a m fl hclose hfail

/-- Witness for C9 at a concrete run: pin 17 is set up as an output and
marked persistent; a second setup of 17 fails during creation (the line is
still claimed by the unreleased first handle) and afterwards 17 has no
device, no persistence record, and no entry in the file. -/
theorem c9_failed_setup_runs_cleanup_witness :
    lookupA (setup_pin closeOk (set_pin_persistence (setup_pin closeOk gEmpty 17 PinMode.OUTPUT false) 17 true) 17 PinMode.PWM false).activeDevices 17 = none ∧
    hasKeyA (setup_pin closeOk (set_pin_persistence (setup_pin closeOk gEmpty 17 PinMode.OUTPUT false) 17 true) 17 PinMode.PWM false).persistentPins 17 = false ∧
    hasKeyA (setup_pin closeOk (set_pin_persistence (setup_pin closeOk gEmpty 17 PinMode.OUTPUT false) 17 true) 17 PinMode.PWM false).stateFile 17 = false :=
  c9_failed_setup_runs_cleanup closeOk
    (set_pin_persistence (setup_pin closeOk gEmpty 17 PinMode.OUTPUT false) 17 true)
    17 PinMode.PWM false (by decide) (Or.inl (by decide))

/-- Counterexample to C5 as stated: address 99 is absent from the catalog,
yet setup_pin(99, OUTPUT) on a state where 99 is marked persistent is not
a rejected no-op: it removes the persistence record for 99 (the pre-create
cleanup_pin pops it and rewrites the file), so a mutation happens with no
catalog validation. -/
theorem c5_unknown_pin_setup_mutates :
    hasKeyA BCM_PIN_MAP 99 = false ∧
    (set_pin_persistence gEmpty 99 true).persistentPins = [(99, { mode := none, state := none })] ∧
    (setup_pin closeOk (set_pin_persistence gEmpty 99 true) 99 PinMode.OUTPUT false).persistentPins = [] := by
  refine ⟨by decide, by decide, by decide⟩

/-- C5 as amended: setup_pin performs no catalog validation before
mutating.  For an address absent from the catalog, device construction
fails and the error path runs cleanup_pin, so the call leaves no active
device at the address but deletes any persistence record for it and
rewrites the durable file without it. -/
theorem c5_unknown_pin_cleanup_effects (cf : Nat → Bool) (s : GState) (a : Nat)
    (m : PinMode) (fl : Bool) (hclose : cf a = false)
    (hcat : hasKeyA BCM_PIN_MAP a = false) :
    lookupA (setup_pin cf s a m fl).activeDevices a = none ∧
    hasKeyA (setup_pin cf s a m fl).persistentPins a = false ∧
    hasKeyA (setup_pin cf s a m fl).stateFile a = false :=
  setup_pin_create_fails_cleanup cf s a m fl hclose (Or.inr hcat)

/-- Witness for the amended C5 at a concrete input: address 99 is not in
the catalog; setting it up on a state where it is marked persistent leaves
no device, no persistence record, and no file entry at 99. -/
theorem c5_unknown_pin_cleanup_effects_witness :
    lookupA (setup_pin closeOk (set_pin_persistence gEmpty 99 true) 99 PinMode.OUTPUT false).activeDevices 99 = none ∧
    hasKeyA (setup_pin closeOk (set_pin_persistence gEmpty 99 true) 99 PinMode.OUTPUT false).persistentPins 99 = false ∧
    hasKeyA (setup_pin closeOk (set_pin_persistence gEmpty 99 true) 99 PinMode.OUTPUT false).stateFile 99 = false :=
  c5_unknown_pin_cleanup_effects closeOk (set_pin_persistence gEmpty 99 true)
    99 PinMode.OUTPUT false (by decide) (by decide)

/-- C4: the gateway set-state operation handle_ai_gpio_request fails with
the not-configured message and no state change when the address has no
active device; fails with the wrong-capability message and no state change
when the active device is not an LED output (an input Button or a PWMLED,
which is not an LED in gpiozero); and only when the device is an LED does
a request for high drive the device on, reporting success. -/
theorem c4_set_state_capability_checks (s : GState) (a : Nat) (st : String) :
    (lookupA s.activeDevices a = none →
      handle_ai_gpio_request s a st =
        ((false, "Pin is not currently configured. Please set it to OUTPUT mode first."), s)) ∧
    (∀ p : Bool, lookupA s.activeDevices a = some (Device.Button p) →
      handle_ai_gpio_request s a st =
        ((false, "Pin is not configured as an OUTPUT. Current mode is another type."), s)) ∧
    (∀ v : ℚ, lookupA s.activeDevices a = some (Device.PWMLED v) →
      handle_ai_gpio_request s a st =
        ((false, "Pin is not configured as an OUTPUT. Current mode is another type."), s)) ∧
    (∀ b : Bool, lookupA s.activeDevices a = some (Device.LED b) →
      (handle_ai_gpio_request s a "high").1.1 = true ∧
      lookupA (handle_ai_gpio_request s a "high").2.activeDevices a = some (Device.LED true)) := by
  refine ⟨?_, ?_, ?_, ?_⟩
  · intro h
    unfold handle_ai_gpio_request
    rw [h]
  · intro p h
    unfold handle_ai_gpio_request
    rw [h]
  · intro v h
    unfold handle_ai_gpio_request
    rw [h]
  · intro b h
    unfold handle_ai_gpio_request
    rw [h]
    have hpl : pyLower "high" = "high" := rfl
    simp [hpl, save_persistent_states, lookupA_updateA_self, h]

/-- Witness for C4 at concrete runs: an unconfigured pin is rejected, an
input pin is rejected as not an output, and an output pin is driven high
with success reported. -/
theorem c4_set_state_capability_checks_witness :
    handle_ai_gpio_request gEmpty 5 "high" =
      ((false, "Pin is not currently configured. Please set it to OUTPUT mode first."), gEmpty) ∧
    handle_ai_gpio_request (setup_pin closeOk gEmpty 17 PinMode.INPUT false) 17 "high" =
      ((false, "Pin is not configured as an OUTPUT. Current mode is another type."),
        setup_pin closeOk gEmpty 17 PinMode.INPUT false) ∧
    (handle_ai_gpio_request (setup_pin closeOk gEmpty 17 PinMode.OUTPUT false) 17 "high").1.1 = true :=
  ⟨(c4_set_state_capability_checks gEmpty 5 "high").1 (by decide),
   (c4_set_state_capability_checks (setup_pin closeOk gEmpty 17 PinMode.INPUT false) 17 "high").2.1
     false (by decide),
   ((c4_set_state_capability_checks (setup_pin closeOk gEmpty 17 PinMode.OUTPUT false) 17 "high").2.2.2
     false (by decide)).1⟩

/-- Counterexample to C3 as stated: with pin 17 configured as an output,
the automation pulse request with interval 0 milliseconds does not fail
and does change state: it reports success and installs a pulse task with
interval 0 (there was none before). -/
theorem c3_zero_interval_pulse_accepted :
    (request_gpio_pulse (setup_pin closeOk gEmpty 17 PinMode.OUTPUT false) 17 0).1.1 = true ∧
    (request_gpio_pulse (setup_pin closeOk gEmpty 17 PinMode.OUTPUT false) 17 0).2.pulseThreads = [(17, 0)] ∧
    (setup_pin closeOk gEmpty 17 PinMode.OUTPUT false).pulseThreads = [] := by
  refine ⟨by decide, ?_, by decide⟩
  simp [request_gpio_pulse, start_pulse, stop_pulse, setup_pin, cleanup_pin, save_persistent_states,
        pins_to_save, gzCreate, gEmpty, lookupA, hasKeyA, eraseA, insertA, updateA, hasToggle]

/-- C3 as amended: neither start_pulse nor request_gpio_pulse validates
the interval: for every pin holding a device with a toggle method the
automation request succeeds for any interval, nonpositive included, and
installs a pulse task; the only interval validation in the program is the
interactive entry check of OutputControlWindow, which rejects values that
are not strictly positive before start_pulse is ever called. -/
theorem c3_interval_validated_only_in_ui (s : GState) (a : Nat) (d : Device) (i : ℤ)
    (hdev : lookupA s.activeDevices a = some d) (htog : hasToggle d = true)
    (_hi : i ≤ 0) :
    (request_gpio_pulse s a i).1.1 = true ∧
    is_pin_pulsing (request_gpio_pulse s a i).2 a = true ∧
    (∀ x : ℚ, x ≤ 0 → ∀ u : String,
      get_interval_in_seconds x u = Except.error "Interval must be positive.") := by
  refine ⟨?_, ?_, ?_⟩
  · unfold request_gpio_pulse
    rw [hdev]
    simp [htog]
  · unfold request_gpio_pulse
    rw [hdev]
    simp [htog, is_pin_pulsing, start_pulse, hasKeyA_insertA_self]
  · intro x hx u
    unfold get_interval_in_seconds
    rw [if_pos hx]

/-- Witness for the amended C3 at a concrete run: pin 17 configured as an
output, pulse requested with interval 0: the request succeeds and the pin
is pulsing, while the interactive check rejects an entry of 0 seconds. -/
theorem c3_interval_validated_only_in_ui_witness :
    (request_gpio_pulse (setup_pin closeOk gEmpty 17 PinMode.OUTPUT false) 17 0).1.1 = true ∧
    is_pin_pulsing (request_gpio_pulse (setup_pin closeOk gEmpty 17 PinMode.OUTPUT false) 17 0).2 17 = true ∧
    get_interval_in_seconds 0 "Seconds" = Except.error "Interval must be positive." := by
  have h := c3_interval_validated_only_in_ui (setup_pin closeOk gEmpty 17 PinMode.OUTPUT false)
    17 (Device.LED false) 0 (by decide) (by decide) (by decide)
  exact ⟨h.1, h.2.1, h.2.2 0 (by norm_num) "Seconds"⟩

/-- C2 evaluated at the failing input: setting up pin 17 as an output
succeeds with exactly one handle; a second setup_pin of 17 as an input
takes the already-configured branch without releasing the old handle,
device construction then fails because the line is still claimed
(gzCreate yields none), and the except path tears the pin down, leaving
zero active handles at 17 instead of exactly one. -/
theorem c2_resetup_leaves_no_handle :
    (setup_pin closeOk gEmpty 17 PinMode.OUTPUT false).activeDevices = [(17, Device.LED false)] ∧
    gzCreate (setup_pin closeOk gEmpty 17 PinMode.OUTPUT false).activeDevices 17 PinMode.INPUT = none ∧
    (setup_pin closeOk (setup_pin closeOk gEmpty 17 PinMode.OUTPUT false) 17 PinMode.INPUT false).activeDevices = [] := by
  refine ⟨by decide, by decide, by decide⟩

/-- C1 evaluated at the failing input: pin 17 is configured as an output,
then marked persistent, then set high through the gateway; the durable
file ends up holding the record of 17 with state HIGH but with no mode key
(set_pin_persistence stores a fresh record without a mode and nothing
later adds one).  Reloading that file restores nothing: the load loop
skips the record because it has no mode, so after the restart the page has
no active device at 17 and a query reports pin 17 unconfigured rather than
Output and high. -/
theorem c1_persistence_roundtrip_fails :
    (setup_pin closeOk gEmpty 17 PinMode.OUTPUT false).activeDevices = [(17, Device.LED false)] ∧
    (handle_ai_gpio_request (set_pin_persistence (setup_pin closeOk gEmpty 17 PinMode.OUTPUT false) 17 true) 17 "high").1.1 = true ∧
    (handle_ai_gpio_request (set_pin_persistence (setup_pin closeOk gEmpty 17 PinMode.OUTPUT false) 17 true) 17 "high").2.stateFile
      = [(17, { mode := none, state := some SavedState.HIGH })] ∧
    load_pin_states closeOk [(17, { mode := none, state := some SavedState.HIGH })]
      = Except.ok { activeDevices := [], pulseThreads := [],
                    persistentPins := [(17, { mode := none, state := some SavedState.HIGH })],
                    stateFile := [(17, { mode := none, state := some SavedState.HIGH })] } ∧
    lookupA ([] : List (Nat × Device)) 17 = none := by
  refine ⟨by decide, by decide, by decide, by decide, by decide⟩
